import Mathlib

/-!
Verification of the symbolic-identifier registry of `src/airscan-id.c`:
a generic name/id lookup engine (`id_name`, `id_by_name`) driving six
statically defined domain tables, plus thin per-domain wrappers.

Modelling conventions:
* A C `const char *` name is `Option String` (`none` is the NULL pointer,
  the "absent" marker).
* The linear scan of the engine over a table may, in C, read past the declared
  end of the array when no terminating sentinel is present.  Such an
  out-of-bounds read is undefined behavior; engine results therefore live
  in `Option _`, where the outer `none` marks the scan running off the
  declared entries and `some r` is the value the C function returns.
* The constants taken from `airscan.h` and the SANE headers (enumerator
  values and option-value strings) are not part of this slice; they are
  modelled from the spec, as noted on each definition.
-/

set_option autoImplicit false

namespace Airscan

/-- Name/value mapping entry (C `typedef struct { int id; const char *name; }
id_name_table`).  `name = none` models a NULL name pointer. -/
structure id_name_table where
  id : Int
  name : Option String
deriving DecidableEq, Repr

/-- ASCII lower-casing of one character, as C `tolower` in the C locale. -/
def asciiLower (c : Char) : Char :=
  if 'A' ≤ c ∧ c ≤ 'Z' then Char.ofNat (c.toNat + 32) else c

/-- Boolean form of C `strcasecmp(s1, s2) == 0`: the two strings are equal
after ASCII lower-casing.  The engine consumes only the zero-ness of the
comparator result, which is what this Bool captures. -/
def strcaseEq (s1 s2 : String) : Bool :=
  s1.data.map asciiLower == s2.data.map asciiLower

/-- C `id_name`: scan the table in declared order, stopping at the first
entry whose name is NULL; return the name of the first entry whose id
equals the argument, or NULL (`some none`) upon reaching the sentinel.
The outer `none` models the scan running past the declared entries without
having met a sentinel: an out-of-bounds read, undefined behavior in C. -/
def id_name (id : Int) : List id_name_table → Option (Option String)
  | [] => none
  | e :: rest =>
    match e.name with
    | none => some none
    | some n => if e.id = id then some (some n) else id_name id rest

/-- C `id_by_name`: scan the table in declared order, stopping at the first
entry whose name is NULL; return the id of the first entry whose name the
comparator reports equal (C `cmp(name, table[i].name) == 0` is modelled by
`cmp name n = true`), or -1 upon reaching the sentinel.  The outer `none`
again models the out-of-bounds scan. -/
def id_by_name (name : String) (cmp : String → String → Bool) :
    List id_name_table → Option Int
  | [] => none
  | e :: rest =>
    match e.name with
    | none => some (-1)
    | some n => if cmp name n then some e.id else id_by_name name cmp rest

/-- Modelled from the spec: the `ID_PROTO` enumerators of `airscan.h` (not
in this slice).  The unknown sentinel is -1 — the code comments promise
`id_proto_by_name` returns `ID_PROTO_UNKNOWN` for an unknown name while the
engine returns -1 — and the live values are consecutive small naturals. -/
def ID_PROTO_UNKNOWN : Int := -1

/-- Modelled from the spec: see `ID_PROTO_UNKNOWN`. -/
def ID_PROTO_ESCL : Int := 0

/-- Modelled from the spec: see `ID_PROTO_UNKNOWN`. -/
def ID_PROTO_WSD : Int := 1

/-- C `id_proto_name_table`: name mapping for ID_PROTO. -/
def id_proto_name_table : List id_name_table :=
  [⟨ID_PROTO_ESCL, some "eSCL"⟩,
   ⟨ID_PROTO_WSD, some "WSD"⟩,
   ⟨-1, none⟩]

/-- C `id_proto_name`: protocol name for an id, NULL when unknown. -/
def id_proto_name (proto : Int) : Option (Option String) :=
  id_name proto id_proto_name_table

/-- C `id_proto_by_name`: protocol id for a name, `ID_PROTO_UNKNOWN` when
unknown; delegates to the engine with `strcasecmp`. -/
def id_proto_by_name (name : String) : Option Int :=
  id_by_name name strcaseEq id_proto_name_table

/-- Modelled from the spec: the `ID_SOURCE` enumerators of `airscan.h` (not
in this slice); unknown sentinel -1, live values consecutive. -/
def ID_SOURCE_UNKNOWN : Int := -1

/-- Modelled from the spec: see `ID_SOURCE_UNKNOWN`. -/
def ID_SOURCE_PLATEN : Int := 0

/-- Modelled from the spec: see `ID_SOURCE_UNKNOWN`. -/
def ID_SOURCE_ADF_SIMPLEX : Int := 1

/-- Modelled from the spec: see `ID_SOURCE_UNKNOWN`. -/
def ID_SOURCE_ADF_DUPLEX : Int := 2

/-- Modelled from the spec: the SANE option-value string for the flatbed
platen source (`airscan.h`, not in this slice).  Its exact spelling decides
no claim; it only needs to differ, case-insensitively, from the others. -/
def OPTVAL_SOURCE_PLATEN : String := "Flatbed"

/-- Modelled from the spec: the SANE option-value string for the
single-sided (simplex) feeder source.  The spec fixes it as "adf-simplex"
up to ASCII case; the spec leaves the declared casing itself open. -/
def OPTVAL_SOURCE_ADF_SIMPLEX : String := "ADF-Simplex"

/-- Modelled from the spec: the SANE option-value string for the
double-sided (duplex) feeder source; exact spelling decides no claim. -/
def OPTVAL_SOURCE_ADF_DUPLEX : String := "ADF-Duplex"

/-- C `id_source_sane_name_table`: ID_SOURCE to SANE name mapping. -/
def id_source_sane_name_table : List id_name_table :=
  [⟨ID_SOURCE_PLATEN, some OPTVAL_SOURCE_PLATEN⟩,
   ⟨ID_SOURCE_ADF_SIMPLEX, some OPTVAL_SOURCE_ADF_SIMPLEX⟩,
   ⟨ID_SOURCE_ADF_DUPLEX, some OPTVAL_SOURCE_ADF_DUPLEX⟩,
   ⟨-1, none⟩]

/-- C `id_source_sane_name`: SANE name for a source id, NULL when unknown. -/
def id_source_sane_name (id : Int) : Option (Option String) :=
  id_name id id_source_sane_name_table

/-- C `id_source_by_sane_name`: source id for a SANE name,
`ID_SOURCE_UNKNOWN` when unknown. -/
def id_source_by_sane_name (name : String) : Option Int :=
  id_by_name name strcaseEq id_source_sane_name_table

/-- Modelled from the spec: the `ID_COLORMODE` enumerators of `airscan.h`
(not in this slice); unknown sentinel -1, live values consecutive. -/
def ID_COLORMODE_UNKNOWN : Int := -1

/-- Modelled from the spec: see `ID_COLORMODE_UNKNOWN`. -/
def ID_COLORMODE_BW1 : Int := 0

/-- Modelled from the spec: see `ID_COLORMODE_UNKNOWN`. -/
def ID_COLORMODE_GRAYSCALE : Int := 1

/-- Modelled from the spec: see `ID_COLORMODE_UNKNOWN`. -/
def ID_COLORMODE_COLOR : Int := 2

/-- Modelled from the spec: the standard SANE scan-mode value strings
(`sane.h`, external to this slice): halftone, grayscale and color modes. -/
def SANE_VALUE_SCAN_MODE_HALFTONE : String := "Halftone"

/-- Modelled from the spec: see `SANE_VALUE_SCAN_MODE_HALFTONE`. -/
def SANE_VALUE_SCAN_MODE_GRAY : String := "Gray"

/-- Modelled from the spec: see `SANE_VALUE_SCAN_MODE_HALFTONE`. -/
def SANE_VALUE_SCAN_MODE_COLOR : String := "Color"

/-- C `id_colormode_sane_name_table`: ID_COLORMODE to SANE name mapping. -/
def id_colormode_sane_name_table : List id_name_table :=
  [⟨ID_COLORMODE_BW1, some SANE_VALUE_SCAN_MODE_HALFTONE⟩,
   ⟨ID_COLORMODE_GRAYSCALE, some SANE_VALUE_SCAN_MODE_GRAY⟩,
   ⟨ID_COLORMODE_COLOR, some SANE_VALUE_SCAN_MODE_COLOR⟩,
   ⟨-1, none⟩]

/-- C `id_colormode_sane_name`: SANE name for a color mode id. -/
def id_colormode_sane_name (id : Int) : Option (Option String) :=
  id_name id id_colormode_sane_name_table

/-- C `id_colormode_by_sane_name`: color-mode id for a SANE name. -/
def id_colormode_by_sane_name (name : String) : Option Int :=
  id_by_name name strcaseEq id_colormode_sane_name_table

/-- Modelled from the spec: the `ID_FORMAT` enumerators of `airscan.h` (not
in this slice); unknown sentinel -1, live values consecutive. -/
def ID_FORMAT_UNKNOWN : Int := -1

/-- Modelled from the spec: see `ID_FORMAT_UNKNOWN`. -/
def ID_FORMAT_JPEG : Int := 0

/-- Modelled from the spec: see `ID_FORMAT_UNKNOWN`. -/
def ID_FORMAT_TIFF : Int := 1

/-- Modelled from the spec: see `ID_FORMAT_UNKNOWN`. -/
def ID_FORMAT_PNG : Int := 2

/-- Modelled from the spec: see `ID_FORMAT_UNKNOWN`. -/
def ID_FORMAT_PDF : Int := 3

/-- Modelled from the spec: see `ID_FORMAT_UNKNOWN`. -/
def ID_FORMAT_BMP : Int := 4

/-- C `id_format_mime_name_table`: ID_FORMAT to MIME name mapping. -/
def id_format_mime_name_table : List id_name_table :=
  [⟨ID_FORMAT_JPEG, some "image/jpeg"⟩,
   ⟨ID_FORMAT_TIFF, some "image/tiff"⟩,
   ⟨ID_FORMAT_PNG, some "image/png"⟩,
   ⟨ID_FORMAT_PDF, some "application/pdf"⟩,
   ⟨ID_FORMAT_BMP, some "application/bmp"⟩,
   ⟨-1, none⟩]

/-- C `id_format_mime_name`: MIME name for an image-format id. -/
def id_format_mime_name (id : Int) : Option (Option String) :=
  id_name id id_format_mime_name_table

/-- C `id_format_by_mime_name`: format id for a MIME name. -/
def id_format_by_mime_name (name : String) : Option Int :=
  id_by_name name strcaseEq id_format_mime_name_table

/-- C `strchr(s, c)` followed by `+ 1`: the characters after the first
occurrence of `c` in `s`.  `none` models `strchr` returning NULL, upon
which the C code of `id_format_short_name` computes NULL + 1: undefined
behavior. -/
def afterFirstChar (c : Char) : List Char → Option (List Char)
  | [] => none
  | a :: rest => if a = c then some rest else afterFirstChar c rest

/-- C `id_format_short_name`: short name for an image-format id, derived
from the MIME name as the substring after the first `/` separator.  Mirrors
`mime = id_format_mime_name(id)`, then `name = mime ? strchr(mime, slash) + 1
: NULL`, then `return name ? name : mime`: when `mime` is NULL, `name` is
NULL and `mime` (NULL) is returned; when `strchr` finds no `/` separator,
NULL + 1 is undefined behavior (outer `none`). -/
def id_format_short_name (id : Int) : Option (Option String) :=
  match id_format_mime_name id with
  | none => none
  | some none => some none
  | some (some m) =>
    match afterFirstChar '/' m.data with
    | none => none
    | some rest => some (some (String.mk rest))

/-- Modelled from the spec: the `ID_JUSTIFICATION_X` enumerators of
`airscan.h` (not in this slice); unknown sentinel -1, live values
consecutive. -/
def ID_JUSTIFICATION_UNKNOWN : Int := -1

/-- Modelled from the spec: see `ID_JUSTIFICATION_UNKNOWN`. -/
def ID_JUSTIFICATION_X_LEFT : Int := 0

/-- Modelled from the spec: see `ID_JUSTIFICATION_UNKNOWN`. -/
def ID_JUSTIFICATION_X_CENTER : Int := 1

/-- Modelled from the spec: see `ID_JUSTIFICATION_UNKNOWN`. -/
def ID_JUSTIFICATION_X_RIGHT : Int := 2

/-- Modelled from the spec: the standard SANE "inactive" capability bit
(1 << 5, external `sane.h`), an option-capability constant unrelated to the
justification domain that the justification table nevertheless uses as an
id. -/
def SANE_CAP_INACTIVE : Int := 32

/-- Modelled from the spec: SANE option-value strings for horizontal
justification (`airscan.h`, not in this slice): left, center, right and the
"none" name. -/
def OPTVAL_JUSTIFICATION_X_LEFT : String := "left"

/-- Modelled from the spec: see `OPTVAL_JUSTIFICATION_X_LEFT`. -/
def OPTVAL_JUSTIFICATION_X_CENTER : String := "center"

/-- Modelled from the spec: see `OPTVAL_JUSTIFICATION_X_LEFT`. -/
def OPTVAL_JUSTIFICATION_X_RIGHT : String := "right"

/-- Modelled from the spec: see `OPTVAL_JUSTIFICATION_X_LEFT`. -/
def OPTVAL_JUSTIFICATION_X_NONE : String := "none"

/-- C `id_justification_x_sane_name_table`: ID_JUSTIFICATION_X to SANE name
mapping.  Exactly as declared in the source, this table has NO `{-1, NULL}`
terminating sentinel: its last declared entry is
`{SANE_CAP_INACTIVE, OPTVAL_JUSTIFICATION_X_NONE}`. -/
def id_justification_x_sane_name_table : List id_name_table :=
  [⟨ID_JUSTIFICATION_X_LEFT, some OPTVAL_JUSTIFICATION_X_LEFT⟩,
   ⟨ID_JUSTIFICATION_X_CENTER, some OPTVAL_JUSTIFICATION_X_CENTER⟩,
   ⟨ID_JUSTIFICATION_X_RIGHT, some OPTVAL_JUSTIFICATION_X_RIGHT⟩,
   ⟨SANE_CAP_INACTIVE, some OPTVAL_JUSTIFICATION_X_NONE⟩]

/-- C `id_justification_x_sane_name`: SANE name for a justification id. -/
def id_justification_x_sane_name (id : Int) : Option (Option String) :=
  id_name id id_justification_x_sane_name_table

/-- C `id_justification_x_by_sane_name`: justification id for a SANE name. -/
def id_justification_x_by_sane_name (name : String) : Option Int :=
  id_by_name name strcaseEq id_justification_x_sane_name_table

/-- Modelled from the spec: the `PROTO_OP` enumerators of `airscan.h` (not
in this slice); the seven phases of the scan-session state machine, as
consecutive small naturals. -/
def PROTO_OP_NONE : Int := 0

/-- Modelled from the spec: see `PROTO_OP_NONE`. -/
def PROTO_OP_PRECHECK : Int := 1

/-- Modelled from the spec: see `PROTO_OP_NONE`. -/
def PROTO_OP_SCAN : Int := 2

/-- Modelled from the spec: see `PROTO_OP_NONE`. -/
def PROTO_OP_LOAD : Int := 3

/-- Modelled from the spec: see `PROTO_OP_NONE`. -/
def PROTO_OP_CHECK : Int := 4

/-- Modelled from the spec: see `PROTO_OP_NONE`. -/
def PROTO_OP_CLEANUP : Int := 5

/-- Modelled from the spec: see `PROTO_OP_NONE`. -/
def PROTO_OP_FINISH : Int := 6

/-- C `proto_op_name_table`: PROTO_OP to name mapping. -/
def proto_op_name_table : List id_name_table :=
  [⟨PROTO_OP_NONE, some "PROTO_OP_NONE"⟩,
   ⟨PROTO_OP_PRECHECK, some "PROTO_OP_PRECHECK"⟩,
   ⟨PROTO_OP_SCAN, some "PROTO_OP_SCAN"⟩,
   ⟨PROTO_OP_LOAD, some "PROTO_OP_LOAD"⟩,
   ⟨PROTO_OP_CHECK, some "PROTO_OP_CHECK"⟩,
   ⟨PROTO_OP_CLEANUP, some "PROTO_OP_CLEANUP"⟩,
   ⟨PROTO_OP_FINISH, some "PROTO_OP_FINISH"⟩,
   ⟨-1, none⟩]

/-- C `proto_op_name`: PROTO_OP name, for logging. -/
def proto_op_name (op : Int) : Option (Option String) :=
  id_name op proto_op_name_table

/-- The six domain tables of the registry, in source order. -/
def allTables : List (List id_name_table) :=
  [id_proto_name_table, id_source_sane_name_table,
   id_colormode_sane_name_table, id_format_mime_name_table,
   id_justification_x_sane_name_table, proto_op_name_table]

/-- The five domain tables that end with the `{-1, NULL}` terminating
sentinel (every table except the justification-x one). -/
def sentinelTables : List (List id_name_table) :=
  [id_proto_name_table, id_source_sane_name_table,
   id_colormode_sane_name_table, id_format_mime_name_table,
   proto_op_name_table]

/-- The live entries of a table: those before the first sentinel (the first
entry whose name is absent). -/
def liveEntries (t : List id_name_table) : List id_name_table :=
  t.takeWhile fun e => e.name.isSome

/-- Written from the wording of the spec for name-for-id, independently of
the engine: scan the entries in declared order, return the name of the
first entry whose id equals the argument, and absent when the terminating
sentinel is reached without a match. -/
def spec_name_for_id (id : Int) (t : List id_name_table) : Option String :=
  match (liveEntries t).find? (fun e => e.id == id) with
  | some e => e.name
  | none => none

/-- Written from the wording of the spec for id-for-name, independently of
the engine: scan the entries in declared order, return the id of the first
entry whose name the comparator reports equal to the argument, and the
unknown sentinel -1 when no entry matches before the terminating
sentinel. -/
def spec_id_for_name (name : String) (cmp : String → String → Bool)
    (t : List id_name_table) : Int :=
  match (liveEntries t).find? (fun e =>
      match e.name with
      | some n => cmp name n
      | none => false) with
  | some e => e.id
  | none => -1

/-- Strings that are equal up to ASCII case compare equally, under the
case-insensitive comparator, against any third string. -/
theorem strcaseEq_congr {s1 s2 : String} (h : strcaseEq s1 s2 = true)
    (n : String) : strcaseEq s1 n = strcaseEq s2 n := by
  unfold strcaseEq at h ⊢
  have h' : s1.data.map asciiLower = s2.data.map asciiLower := by simpa using h
  rw [h']

/-- The reverse lookup with the case-insensitive comparator returns the
same result on any two strings that are equal up to ASCII case. -/
theorem id_by_name_congr {s1 s2 : String} (h : strcaseEq s1 s2 = true) :
    ∀ t : List id_name_table,
      id_by_name s1 strcaseEq t = id_by_name s2 strcaseEq t := by
  intro t
  induction t with
  | nil => rfl
  | cons e rest ih =>
    cases hn : e.name with
    | none => simp [id_by_name, hn]
    | some n => simp [id_by_name, hn, strcaseEq_congr h n, ih]

/-- On a table containing a sentinel the forward scan is defined and agrees
with the find-first function written from the spec. -/
theorem id_name_eq_spec (id : Int) :
    ∀ t : List id_name_table, (∃ e ∈ t, e.name = none) →
      id_name id t = some (spec_name_for_id id t) := by
  intro t
  induction t with
  | nil => rintro ⟨e, he, -⟩; exact absurd he (List.not_mem_nil e)
  | cons e rest ih =>
    rintro ⟨s, hs, hsn⟩
    cases hn : e.name with
    | none => simp [id_name, spec_name_for_id, liveEntries, hn]
    | some n =>
      have hrest : ∃ x ∈ rest, x.name = none := by
        rcases List.mem_cons.mp hs with h | h
        · rw [h, hn] at hsn; cases hsn
        · exact ⟨s, h, hsn⟩
      by_cases hid : e.id = id
      · simp [id_name, spec_name_for_id, liveEntries, hn, hid]
      · have hr := ih hrest
        simp [id_name, spec_name_for_id, liveEntries, hn, hid] at hr ⊢
        exact hr

/-- On a table containing a sentinel the reverse scan is defined and agrees
with the find-first function written from the spec. -/
theorem id_by_name_eq_spec (name : String) (cmp : String → String → Bool) :
    ∀ t : List id_name_table, (∃ e ∈ t, e.name = none) →
      id_by_name name cmp t = some (spec_id_for_name name cmp t) := by
  intro t
  induction t with
  | nil => rintro ⟨e, he, -⟩; exact absurd he (List.not_mem_nil e)
  | cons e rest ih =>
    rintro ⟨s, hs, hsn⟩
    cases hn : e.name with
    | none => simp [id_by_name, spec_id_for_name, liveEntries, hn]
    | some n =>
      have hrest : ∃ x ∈ rest, x.name = none := by
        rcases List.mem_cons.mp hs with h | h
        · rw [h, hn] at hsn; cases hsn
        · exact ⟨s, h, hsn⟩
      by_cases hc : cmp name n = true
      · simp [id_by_name, spec_id_for_name, liveEntries, hn, hc]
      · have hr := ih hrest
        simp [id_by_name, spec_id_for_name, liveEntries, hn, hc] at hr ⊢
        exact hr

/-- On a table containing a sentinel, a forward lookup on an id equal to no
live entry id returns the absent marker. -/
theorem id_name_no_match (id : Int) (t : List id_name_table)
    (hsent : ∃ e ∈ t, e.name = none)
    (hmiss : ∀ e ∈ t, e.name.isSome = true → e.id ≠ id) :
    id_name id t = some none := by
  have h := id_name_eq_spec id t hsent
  have hfind : (liveEntries t).find? (fun e => e.id == id) = none := by
    rw [List.find?_eq_none]
    intro x hx
    unfold liveEntries at hx
    have hxt : x ∈ t := List.takeWhile_subset _ hx
    have hxs : x.name.isSome = true := by
      simpa using List.mem_takeWhile_imp hx
    simpa using hmiss x hxt hxs
  rw [h]
  unfold spec_name_for_id
  rw [hfind]

/-- On a table containing a sentinel, a reverse lookup on a string the
comparator matches against no live entry name returns -1. -/
theorem id_by_name_no_match (name : String) (cmp : String → String → Bool)
    (t : List id_name_table)
    (hsent : ∃ e ∈ t, e.name = none)
    (hmiss : ∀ e ∈ t, e.name.isSome = true →
      cmp name (e.name.getD "") = false) :
    id_by_name name cmp t = some (-1) := by
  have h := id_by_name_eq_spec name cmp t hsent
  have hfind : (liveEntries t).find? (fun e =>
      match e.name with
      | some n => cmp name n
      | none => false) = none := by
    rw [List.find?_eq_none]
    intro x hx
    unfold liveEntries at hx
    have hxt : x ∈ t := List.takeWhile_subset _ hx
    have hxs : x.name.isSome = true := by
      simpa using List.mem_takeWhile_imp hx
    cases hn : x.name with
    | none => simp [hn]
    | some n =>
      have := hmiss x hxt hxs
      rw [hn] at this
      simp [hn]
      exact this
  rw [h]
  unfold spec_id_for_name
  rw [hfind]

/-- Claim C1: for every domain table and every live entry in it, the
forward lookup on the id of the entry returns the name of the entry, and
the reverse lookup on that name, with the case-insensitive comparator,
returns the id of the entry (round-trip). -/
theorem c1_round_trip :
    ∀ t ∈ allTables, ∀ e ∈ t, e.name.isSome = true →
      id_name e.id t = some e.name ∧
      id_by_name (e.name.getD "") strcaseEq t = some e.id := by decide

/-- Claim C1 witness: the round-trip at the eSCL entry of the protocol
table. -/
theorem c1_round_trip_witness :
    ((⟨ID_PROTO_ESCL, some "eSCL"⟩ : id_name_table).name.isSome = true) ∧
    (id_name ID_PROTO_ESCL id_proto_name_table = some (some "eSCL") ∧
     id_by_name "eSCL" strcaseEq id_proto_name_table = some ID_PROTO_ESCL) :=
  ⟨by decide,
   c1_round_trip id_proto_name_table (by decide)
     ⟨ID_PROTO_ESCL, some "eSCL"⟩ (by decide) (by decide)⟩

/-- Claim C2, evaluated on the code: the justification-x table contains no
sentinel entry (every declared entry has a present name), so the forward
lookup on an id matching no declared entry — here -1 — runs past the
declared bounds of the table (the undefined result), contradicting the
claim; every other domain table does contain the terminating sentinel. -/
theorem c2_justification_x_scan_unbounded :
    (id_justification_x_sane_name_table.all fun e => e.name.isSome) = true ∧
    id_justification_x_sane_name (-1) = none ∧
    (sentinelTables.all fun t => t.any fun e => !e.name.isSome) = true := by
  decide

/-- Claim C3: for every domain table, the reverse lookup returns the same
result on any two strings that are equal up to ASCII case; in particular
"adf-simplex" and "ADF-SIMPLEX" both resolve to the ADF-simplex source
id. -/
theorem c3_case_insensitive :
    (∀ t ∈ allTables, ∀ s1 s2 : String, strcaseEq s1 s2 = true →
      id_by_name s1 strcaseEq t = id_by_name s2 strcaseEq t) ∧
    id_source_by_sane_name "adf-simplex" = some ID_SOURCE_ADF_SIMPLEX ∧
    id_source_by_sane_name "ADF-SIMPLEX" = some ID_SOURCE_ADF_SIMPLEX :=
  ⟨fun t _ s1 s2 h => id_by_name_congr h t, by decide, by decide⟩

/-- Claim C3 witness: "wsd" and "WSD" give the same result on the protocol
table. -/
theorem c3_case_insensitive_witness :
    strcaseEq "wsd" "WSD" = true ∧
    id_by_name "wsd" strcaseEq id_proto_name_table
      = id_by_name "WSD" strcaseEq id_proto_name_table :=
  ⟨by decide,
   c3_case_insensitive.1 id_proto_name_table (by decide) "wsd" "WSD"
     (by decide)⟩

/-- Claim C4: the format short name is the substring of the MIME name after
the first `/` separator — "jpeg" for the JPEG id and "pdf" for the PDF
id — and a format id with no MIME mapping yields the absent marker. -/
theorem c4_format_short_name :
    id_format_short_name ID_FORMAT_JPEG = some (some "jpeg") ∧
    id_format_short_name ID_FORMAT_PDF = some (some "pdf") ∧
    ∀ id : Int, id_format_mime_name id = some none →
      id_format_short_name id = some none := by
  refine ⟨by decide, by decide, fun id h => ?_⟩
  unfold id_format_short_name
  rw [h]

/-- Claim C4 witness: the format id 100 has no MIME mapping and its short
name is absent. -/
theorem c4_format_short_name_witness :
    id_format_mime_name 100 = some none ∧
    id_format_short_name 100 = some none :=
  ⟨by decide, c4_format_short_name.2.2 100 (by decide)⟩

/-- Claim C5 counterexample: the claim fails on the justification-x
domain — the id -1 equals the id of no live entry of its table, which is
one of the domain tables, yet the forward lookup does not return the
absent marker: it runs past the declared bounds. -/
theorem c5_counterexample :
    id_justification_x_sane_name_table ∈ allTables ∧
    (id_justification_x_sane_name_table.all fun e =>
      e.name.isSome && !(e.id == -1)) = true ∧
    ¬ id_name (-1) id_justification_x_sane_name_table = some none := by
  decide

/-- Claim C5 (amended): for every domain whose table ends with the
terminating sentinel — all domains except justification-x — the forward
lookup on an id equal to the id of no live entry returns the absent
marker, an ordinary representable result. -/
theorem c5_absent_id_gives_absent :
    ∀ t ∈ sentinelTables, ∀ id : Int,
      (∀ e ∈ t, e.name.isSome = true → e.id ≠ id) →
      id_name id t = some none := by
  intro t ht id hmiss
  refine id_name_no_match id t ?_ hmiss
  fin_cases ht <;> decide

/-- Claim C5 witness: the protocol table at the absent id 42. -/
theorem c5_absent_id_gives_absent_witness :
    (∀ e ∈ id_proto_name_table, e.name.isSome = true → e.id ≠ 42) ∧
    id_name 42 id_proto_name_table = some none :=
  ⟨by decide,
   c5_absent_id_gives_absent id_proto_name_table (by decide) 42 (by decide)⟩

/-- Claim C6 counterexample: the claim fails on the justification-x
domain — "no-such-name" compares equal to no entry name of its table under
the case-insensitive comparator, yet the reverse lookup does not return
the unknown sentinel: it runs past the declared bounds. -/
theorem c6_counterexample :
    (id_justification_x_sane_name_table.all fun e =>
      !(strcaseEq "no-such-name" (e.name.getD ""))) = true ∧
    id_justification_x_by_sane_name "no-such-name" = none ∧
    ¬ id_justification_x_by_sane_name "no-such-name" = some (-1) := by
  decide

/-- Claim C6 (amended): for every domain whose table ends with the
terminating sentinel — all domains except justification-x — the reverse
lookup on a string comparing equal to no live entry name returns the
unknown sentinel -1, never the id of a non-matching entry and never a
failure. -/
theorem c6_unmatched_name_gives_unknown :
    ∀ t ∈ sentinelTables, ∀ name : String,
      (∀ e ∈ t, e.name.isSome = true →
        strcaseEq name (e.name.getD "") = false) →
      id_by_name name strcaseEq t = some (-1) := by
  intro t ht name hmiss
  refine id_by_name_no_match name strcaseEq t ?_ hmiss
  fin_cases ht <;> decide

/-- Claim C6 witness: the protocol table at the unmatched string
"no-such-name". -/
theorem c6_unmatched_name_gives_unknown_witness :
    (∀ e ∈ id_proto_name_table, e.name.isSome = true →
      strcaseEq "no-such-name" (e.name.getD "") = false) ∧
    id_by_name "no-such-name" strcaseEq id_proto_name_table = some (-1) :=
  ⟨by decide,
   c6_unmatched_name_gives_unknown id_proto_name_table (by decide)
     "no-such-name" (by decide)⟩

/-- Claim C7: on a sentinel-terminated table the forward lookup returns
the name of the first entry whose id equals the argument, scanning in
declared order (absent if none before the sentinel), and the reverse
lookup returns the id of the first entry whose name the supplied
comparator accepts (-1 if none): the engine agrees with `spec_name_for_id`
and `spec_id_for_name`, which are written from the wording of the spec. -/
theorem c7_first_match :
    ∀ (t : List id_name_table) (id : Int) (name : String)
      (cmp : String → String → Bool), (∃ e ∈ t, e.name = none) →
      id_name id t = some (spec_name_for_id id t) ∧
      id_by_name name cmp t = some (spec_id_for_name name cmp t) :=
  fun t id name cmp h =>
    ⟨id_name_eq_spec id t h, id_by_name_eq_spec name cmp t h⟩

/-- Claim C7 witness: the protocol-operation table at the scan phase. -/
theorem c7_first_match_witness :
    (∃ e ∈ proto_op_name_table, e.name = none) ∧
    (id_name PROTO_OP_SCAN proto_op_name_table
       = some (spec_name_for_id PROTO_OP_SCAN proto_op_name_table) ∧
     id_by_name "PROTO_OP_SCAN" strcaseEq proto_op_name_table
       = some (spec_id_for_name "PROTO_OP_SCAN" strcaseEq
           proto_op_name_table)) :=
  ⟨by decide,
   c7_first_match proto_op_name_table PROTO_OP_SCAN "PROTO_OP_SCAN"
     strcaseEq (by decide)⟩

/-- Claim C8: the justification-x forward lookup at the inactive
capability marker value returns the "none" justification name. -/
theorem c8_inactive_gives_none :
    id_justification_x_sane_name SANE_CAP_INACTIVE
      = some (some OPTVAL_JUSTIFICATION_X_NONE) := by decide

/-- Claim C9: the protocol-operation name of the scan phase is exactly the
literal string "PROTO_OP_SCAN". -/
theorem c9_proto_op_scan_name :
    proto_op_name PROTO_OP_SCAN = some (some "PROTO_OP_SCAN") := rfl

/-- Claim C10 counterexample: the justification-x table stores no
terminator entry — its last declared entry is the inactive-capability id
paired with the "none" name, and no entry of it has an absent name or the
id -1 — refuting the statement that -1 is the id stored in the terminator
entry of each table. -/
theorem c10_counterexample :
    id_justification_x_sane_name_table.getLast?
      = some ⟨SANE_CAP_INACTIVE, some OPTVAL_JUSTIFICATION_X_NONE⟩ ∧
    (id_justification_x_sane_name_table.all fun e =>
      e.name.isSome && !(e.id == -1)) = true := by decide

/-- Claim C10 (amended): each of the five reverse wrappers returns the
result of the generic engine unchanged, the five unknown sentinels
(protocol, source, color mode, format, justification) all coincide with
-1, and -1 is the id stored in the terminator entry of every table except
the justification-x one, which has no terminator entry. -/
theorem c10_unknown_sentinels :
    ID_PROTO_UNKNOWN = -1 ∧ ID_SOURCE_UNKNOWN = -1 ∧
    ID_COLORMODE_UNKNOWN = -1 ∧ ID_FORMAT_UNKNOWN = -1 ∧
    ID_JUSTIFICATION_UNKNOWN = -1 ∧
    (∀ name : String,
      id_proto_by_name name = id_by_name name strcaseEq id_proto_name_table ∧
      id_source_by_sane_name name
        = id_by_name name strcaseEq id_source_sane_name_table ∧
      id_colormode_by_sane_name name
        = id_by_name name strcaseEq id_colormode_sane_name_table ∧
      id_format_by_mime_name name
        = id_by_name name strcaseEq id_format_mime_name_table ∧
      id_justification_x_by_sane_name name
        = id_by_name name strcaseEq id_justification_x_sane_name_table) ∧
    (sentinelTables.all fun t => t.getLast? == some ⟨-1, none⟩) = true :=
  ⟨rfl, rfl, rfl, rfl, rfl, fun name => ⟨rfl, rfl, rfl, rfl, rfl⟩, by decide⟩

end Airscan
